import Mathlib

/-!
Shallow embedding of the chart-computation core of `punnet_aacharya`
(`astro_calculator.py`, constants from `config.py`).

Longitudes are modelled as rationals (`ℚ`); Python's `int()` truncation,
float `%`, and list indexing (including negative indices) are modelled
explicitly.  Fallible Python code (exceptions) is modelled with
`Except PyErr`.
-/

deriving instance DecidableEq for Except

namespace Astro

/-! ### Python-level primitives -/

/-- Floor of a rational, computed from the numerator and denominator. -/
def ratFloor (q : ℚ) : ℤ := q.num / (q.den : ℤ)

/-- Python `int()` applied to a (non-NaN) real: truncation toward zero. -/
def pytrunc (q : ℚ) : ℤ := if 0 ≤ q then ratFloor q else -(ratFloor (-q))

/-- Python `%` between reals: `a - b*⌊a/b⌋` (the semantics for a positive
modulus `b`, the only case the program uses). -/
def pymod (a b : ℚ) : ℚ := a - b * (ratFloor (a / b) : ℚ)

/-- Python list subscription `xs[i]`: nonnegative indices count from the
front, negative indices from the back, anything else is out of range. -/
def pyGet (xs : List α) (i : ℤ) : Option α :=
  if 0 ≤ i then xs[i.toNat]?
  else if -(xs.length : ℤ) ≤ i then xs[((xs.length : ℤ) + i).toNat]?
  else none

/-! ### Exceptions -/

/-- The Python exception classes the program can raise or re-raise. -/
inductive ExcKind
  | valueError
  | indexError
  | keyError
  | attributeError
  | exception
  deriving DecidableEq, Repr

/-- A raised Python exception: its class and its message. -/
structure PyErr where
  kind : ExcKind
  msg : String
  deriving DecidableEq, Repr

/-- Python list subscription as a fallible operation: out-of-range access
raises `IndexError('list index out of range')`. -/
def listIndex (xs : List α) (i : ℤ) : Except PyErr α :=
  match pyGet xs i with
  | some v => .ok v
  | none => .error ⟨.indexError, "list index out of range"⟩

/-- Python dict subscription `d[k]` (dicts modelled as association lists in
insertion order): a missing key raises `KeyError`. -/
def dictGet (xs : List (String × α)) (k : String) : Except PyErr α :=
  match xs.lookup k with
  | some v => .ok v
  | none => .error ⟨.keyError, k⟩

/-! ### Constants from `config.py` -/

/-- `config.LAHIRI_AYANAMSA_2025` (approximate ayanamsa for 2025). -/
def LAHIRI_AYANAMSA_2025 : ℚ := 24.18

/-- `config.NAKSHATRAS`: the 27 lunar mansions. -/
def NAKSHATRAS : List String :=
  ["Ashwini", "Bharani", "Krittika", "Rohini", "Mrigashira", "Ardra",
   "Punarvasu", "Pushya", "Ashlesha", "Magha", "Purva Phalguni",
   "Uttara Phalguni", "Hasta", "Chitra", "Swati", "Vishakha", "Anuradha",
   "Jyeshta", "Mula", "Purva Ashadha", "Uttara Ashadha", "Shravana",
   "Dhanishta", "Shatabhisha", "Purva Bhadrapada", "Uttara Bhadrapada",
   "Revati"]

/-! ### `AstroCalculator.get_sign` -/

/-- The local `signs` table of `get_sign`. -/
def signs : List String :=
  ["Aries", "Taurus", "Gemini", "Cancer", "Leo", "Virgo",
   "Libra", "Scorpio", "Sagittarius", "Capricorn", "Aquarius", "Pisces"]

/-- `AstroCalculator.get_sign`: `signs[int(longitude / 30)]`. -/
def get_sign (longitude : ℚ) : Except PyErr String :=
  listIndex signs (pytrunc (longitude / 30))

/-! ### `AstroCalculator.get_nakshatra` -/

/-- The nakshatra record `get_nakshatra` returns. -/
structure Nakshatra where
  name : String
  pada : ℤ
  deriving DecidableEq, Repr

/-- `AstroCalculator.get_nakshatra`:
`nakshatra_index = int(longitude / 13.333333)`,
`pada = int((longitude % 13.333333) / 3.333333) + 1`,
name looked up as `NAKSHATRAS[nakshatra_index]`. -/
def get_nakshatra (longitude : ℚ) : Except PyErr Nakshatra := do
  let nakshatra_index := pytrunc (longitude / 13.333333)
  let pada := pytrunc ((pymod longitude 13.333333) / 3.333333) + 1
  let nm ← listIndex NAKSHATRAS nakshatra_index
  .ok ⟨nm, pada⟩

/-! ### `AstroCalculator.calculate_planetary_positions` -/

/-- One entry of the `positions` dict: longitude, sign, nakshatra, and the
house number (absent until house assignment fills it in). -/
structure Position where
  longitude : ℚ
  sign : String
  nakshatra : Nakshatra
  house : Option ℕ
  deriving DecidableEq, Repr

/-- `AstroCalculator.get_ayanamsa`: returns the fixed constant. -/
def get_ayanamsa : ℚ := LAHIRI_AYANAMSA_2025

/-- The sidereal correction applied to each tropical longitude:
`sidereal_pos = pos[0] - ayanamsa; if sidereal_pos < 0: sidereal_pos += 360`. -/
def sidereal_of_tropical (pos : ℚ) : ℚ :=
  let s := pos - get_ayanamsa
  if s < 0 then s + 360 else s

/-- Building one `positions[planet]` dict entry (longitude already
sidereal): sign first, then nakshatra, house `None`. -/
def mkPosition (l : ℚ) : Except PyErr Position := do
  let sg ← get_sign l
  let nk ← get_nakshatra l
  .ok ⟨l, sg, nk, none⟩

/-- The keys of `planet_codes`, in insertion order. -/
def planet_names : List String :=
  ["Sun", "Moon", "Mars", "Mercury", "Jupiter", "Venus", "Saturn", "Rahu"]

/-- Lines 108–117 of `astro_calculator.py`: Ketu is derived from Rahu's
(sidereal) longitude as `(rahu_pos + 180) % 360`, with sign and nakshatra
computed from that value. -/
def ketu_position (rahu_pos : ℚ) : Except PyErr Position :=
  mkPosition (pymod (rahu_pos + 180) 360)

/-- `AstroCalculator.calculate_planetary_positions`, with the ephemeris
collaborator's raw tropical longitudes (one per entry of `planet_codes`,
in order) supplied as input. -/
def calculate_planetary_positions (tropical : List ℚ) :
    Except PyErr (List (String × Position)) := do
  let ps ← (planet_names.zip tropical).mapM (fun np => do
      let p ← mkPosition (sidereal_of_tropical np.2)
      pure (np.1, p))
  let rahu ← dictGet ps "Rahu"
  let kp ← ketu_position rahu.longitude
  .ok (ps ++ [("Ketu", kp)])

/-! ### House assignment (step 6 of `generate_birth_chart`) -/

/-- The per-cusp test of the assignment loop: the wraparound reading when
`next_cusp < cusp`, the half-open interval reading otherwise. -/
def houseMatch (cusp next_cusp l : ℚ) : Bool :=
  if next_cusp < cusp then decide (cusp ≤ l) || decide (l < next_cusp)
  else decide (cusp ≤ l) && decide (l < next_cusp)

/-- The assignment loop for one planet: the first index `i` (if any) whose
cusp interval `[cusps[i], cusps[(i+1) % 12])` matches gives house `i + 1`;
no match leaves the house unset. -/
def assign_house (cusps : List ℚ) (l : ℚ) : Option ℕ :=
  ((List.range cusps.length).find? (fun i =>
      houseMatch (cusps.getD i 0) (cusps.getD ((i + 1) % 12) 0) l)).map (· + 1)

/-- Step 6 applied to every planet of the `positions` dict. -/
def assign_houses (cusps : List ℚ) (ps : List (String × Position)) :
    List (String × Position) :=
  ps.map (fun pp => (pp.1, { pp.2 with house := assign_house cusps pp.2.longitude }))

/-! ### `AstroCalculator.calculate_divisional_charts` -/

/-- One divisional-chart entry: derived longitude and its sign. -/
structure DivEntry where
  longitude : ℚ
  sign : String
  deriving DecidableEq, Repr

/-- The `divisional_charts` dict: the D9 (Navamsa) and D10 (Dasamsa)
sub-dicts, planet by planet. -/
structure DivCharts where
  d9 : List (String × DivEntry)
  d10 : List (String × DivEntry)
  deriving DecidableEq, Repr

/-- `AstroCalculator.calculate_divisional_charts`: for every planet,
`d9_longitude = (longitude * 9) % 360` and
`d10_longitude = (longitude * 10) % 360`, each with its derived sign. -/
def calculate_divisional_charts (positions : List (String × Position)) :
    Except PyErr DivCharts := do
  let entries ← positions.mapM (fun pp => do
      let d9_longitude := pymod (pp.2.longitude * 9) 360
      let s9 ← get_sign d9_longitude
      let d10_longitude := pymod (pp.2.longitude * 10) 360
      let s10 ← get_sign d10_longitude
      pure (pp.1, DivEntry.mk d9_longitude s9, DivEntry.mk d10_longitude s10))
  .ok ⟨entries.map (fun x => (x.1, x.2.1)), entries.map (fun x => (x.1, x.2.2))⟩

/-! ### `AstroCalculator.calculate_dasha_periods` -/

/-- The `dasha_lords` table. -/
def dasha_lords : List String :=
  ["Ketu", "Venus", "Sun", "Moon", "Mars", "Rahu", "Jupiter", "Saturn",
   "Mercury"]

/-- The `dasha_years` table (Python ints, used in float arithmetic). -/
def dasha_years : List ℚ := [7, 20, 6, 10, 7, 18, 16, 19, 17]

/-- The `result` dict of `calculate_dasha_periods`. -/
structure Dasha where
  current_dasha : String
  elapsed_years : ℚ
  remaining_years : ℚ
  sequence : List (String × ℚ)
  deriving DecidableEq, Repr

/-- `AstroCalculator.calculate_dasha_periods`:
`nakshatra_index = int(moon_longitude / 13.333333)`,
`start_index = nakshatra_index % 9`,
`elapsed_years = dasha_years[start_index] * ((moon_longitude % 13.333333) / 13.333333)`,
remaining is the duration minus elapsed, and the 9-entry sequence is
`(dasha_lords[(start_index + i) % 9], dasha_years[(start_index + i) % 9])`
for `i` in `range(9)`. -/
def calculate_dasha_periods (moon_longitude : ℚ) : Except PyErr Dasha := do
  let nakshatra_index := pytrunc (moon_longitude / 13.333333)
  let start_index := nakshatra_index % 9
  let nakshatra_portion := (pymod moon_longitude 13.333333) / 13.333333
  let startYears ← listIndex dasha_years start_index
  let elapsed_years := startYears * nakshatra_portion
  let current ← listIndex dasha_lords start_index
  let sequence ← (List.range 9).mapM (fun (i : ℕ) => do
      let lord ← listIndex dasha_lords ((start_index + (i : ℤ)) % 9)
      let years ← listIndex dasha_years ((start_index + (i : ℤ)) % 9)
      pure (lord, years))
  .ok ⟨current, elapsed_years, startYears - elapsed_years, sequence⟩

/-! ### `AstroCalculator.generate_birth_chart` -/

/-- The `houses` dict of `calculate_houses`: the first 12 cusps plus the
Ascendant and Midheaven, as delivered by the ephemeris collaborator. -/
structure Houses where
  cusps : List ℚ
  asc : ℚ
  mc : ℚ
  deriving DecidableEq, Repr

/-- The assembled birth-chart record (the `result` dict of
`generate_birth_chart`). -/
structure Chart where
  name : String
  birth_date : String
  birth_time : String
  birth_place : String
  latitude : ℚ
  longitude : ℚ
  timezone : String
  houses : Houses
  planets : List (String × Position)
  divisional_charts : DivCharts
  dasha : Dasha
  ascendant_sign : String
  sun_sign : String
  moon_sign : String
  deriving DecidableEq, Repr

/-- The inputs of one `generate_birth_chart` call: the request data plus
the outcomes of the external collaborator calls (geocoder, timezone
resolver, Julian-Day conversion, house computation, raw tropical
longitudes from the ephemeris), each of which may raise. -/
structure Stages where
  name : String
  birth_date_iso : String
  birth_time_iso : String
  birth_place : String
  coordinates : Except PyErr (ℚ × ℚ)
  timezone : Except PyErr String
  julian_day : Except PyErr ℚ
  houses : Except PyErr Houses
  tropical_longitudes : Except PyErr (List ℚ)

/-- The outer `except` clause of `generate_birth_chart`: any exception is
re-raised as plain `Exception('Error calculating birth chart: ...')`. -/
def wrap_error (e : PyErr) : PyErr :=
  ⟨.exception, "Error calculating birth chart: " ++ e.msg⟩

/-- The `try` body of `AstroCalculator.generate_birth_chart`: runs the
stages in order, assigns each planet a house, computes divisional charts
and dasha periods, and assembles the result. -/
def generate_birth_chart_inner (st : Stages) : Except PyErr Chart :=
  (do
    let latlon ← st.coordinates
    let tz ← st.timezone
    let _jd ← st.julian_day
    let houses ← st.houses
    let tropical ← st.tropical_longitudes
    let positions0 ← calculate_planetary_positions tropical
    let positions := assign_houses houses.cusps positions0
    let divisional ← calculate_divisional_charts positions
    let moonP ← dictGet positions "Moon"
    let dasha ← calculate_dasha_periods moonP.longitude
    let ascendant ← get_sign houses.asc
    let sunP ← dictGet positions "Sun"
    let moonP2 ← dictGet positions "Moon"
    .ok { name := st.name
          birth_date := st.birth_date_iso
          birth_time := st.birth_time_iso
          birth_place := st.birth_place
          latitude := latlon.1
          longitude := latlon.2
          timezone := tz
          houses := houses
          planets := positions
          divisional_charts := divisional
          dasha := dasha
          ascendant_sign := ascendant
          sun_sign := sunP.sign
          moon_sign := moonP2.sign } : Except PyErr Chart)

/-- `AstroCalculator.generate_birth_chart`: the `try` body with the outer
`except` clause, which re-raises every exception via `wrap_error`. -/
def generate_birth_chart (st : Stages) : Except PyErr Chart :=
  match generate_birth_chart_inner st with
  | .ok c => .ok c
  | .error e => .error (wrap_error e)

/-- Whether the computation produced a value. -/
def pyOk {α : Type} : Except PyErr α → Bool
  | .ok _ => true
  | .error _ => false

/-- A test request whose collaborators all succeed but whose house cusps
are degenerate (all 0°); the tropical longitudes put every planet exactly
at the ayanamsa, i.e. at sidereal 0°. -/
def degenerate_stages : Stages :=
  { name := "Test", birth_date_iso := "2000-01-01",
    birth_time_iso := "12:00:00", birth_place := "Nowhere",
    coordinates := .ok (0, 0), timezone := .ok "UTC", julian_day := .ok 0,
    houses := .ok ⟨List.replicate 12 0, 0, 0⟩,
    tropical_longitudes := .ok (List.replicate 8 24.18) }

/-- The same request when the geocoder raises
`ValueError('Could not find coordinates for ...')`. -/
def failing_stages : Stages :=
  { degenerate_stages with
    coordinates := .error ⟨.valueError, "Could not find coordinates for Nowhere"⟩ }

/-- Whether a chart was produced. -/
def chart_ok : Except PyErr Chart → Bool
  | .ok _ => true
  | .error _ => false

/-- The house field stored for the Sun, when a chart was produced. -/
def sun_house : Except PyErr Chart → Option (Option ℕ)
  | .ok c => (c.planets.lookup "Sun").map Position.house
  | .error _ => none

/-! ### Helper lemmas about the Python primitives -/

theorem ratFloor_eq_floor (q : ℚ) : ratFloor q = ⌊q⌋ := (Rat.floor_def).symm

theorem pytrunc_of_nonneg {q : ℚ} (h : 0 ≤ q) : pytrunc q = ⌊q⌋ := by
  unfold pytrunc
  rw [if_pos h, ratFloor_eq_floor]

theorem pytrunc_of_neg {q : ℚ} (h : q < 0) : pytrunc q = ⌈q⌉ := by
  unfold pytrunc
  rw [if_neg (not_le.2 h), ratFloor_eq_floor, Int.floor_neg, neg_neg]

theorem pymod_def (a b : ℚ) : pymod a b = a - b * ⌊a / b⌋ := by
  unfold pymod
  rw [ratFloor_eq_floor]

theorem pymod_nonneg (a : ℚ) {b : ℚ} (hb : 0 < b) : 0 ≤ pymod a b := by
  rw [pymod_def]
  have h := Int.sub_floor_div_mul_nonneg a hb
  linarith [h, mul_comm b (⌊a / b⌋ : ℚ)]

theorem pymod_lt (a : ℚ) {b : ℚ} (hb : 0 < b) : pymod a b < b := by
  rw [pymod_def]
  have h := Int.sub_floor_div_mul_lt a hb
  linarith [h, mul_comm b (⌊a / b⌋ : ℚ)]

theorem listIndex_eq_ok {α} (xs : List α) (d : α) (i : ℤ) (h0 : 0 ≤ i)
    (h : i.toNat < xs.length) : listIndex xs i = .ok (xs.getD i.toNat d) := by
  unfold listIndex pyGet
  rw [if_pos h0, List.getElem?_eq_getElem h, List.getD_eq_getElem _ _ h]

theorem listIndex_eq_error {α} (xs : List α) (i : ℤ) (h0 : 0 ≤ i)
    (h : xs.length ≤ i.toNat) :
    listIndex xs i = .error ⟨.indexError, "list index out of range"⟩ := by
  unfold listIndex pyGet
  rw [if_pos h0, List.getElem?_eq_none h]

/-- For a longitude in `[0,360)`, the sign lookup succeeds and is the
`int(longitude / 30)`-th entry of the table. -/
theorem get_sign_eq_ok {L : ℚ} (h0 : 0 ≤ L) (h1 : L < 360) :
    get_sign L = .ok (signs.getD (pytrunc (L / 30)).toNat "") := by
  have hq : (0 : ℚ) ≤ L / 30 := div_nonneg h0 (by norm_num)
  have ht : pytrunc (L / 30) = ⌊L / 30⌋ := pytrunc_of_nonneg hq
  have hf0 : 0 ≤ ⌊L / 30⌋ := Int.floor_nonneg.2 hq
  have hf1 : ⌊L / 30⌋ < 12 := by
    rw [Int.floor_lt]
    push_cast
    rw [div_lt_iff (by norm_num : (0:ℚ) < 30)]
    linarith
  have hlen : (pytrunc (L / 30)).toNat < signs.length := by
    rw [ht]
    simp only [signs, List.length]
    omega
  exact listIndex_eq_ok signs "" _ (ht ▸ hf0) hlen

/-- The sign lookup lands in the table, so the result is one of the 12
sign names. -/
theorem get_sign_mem {L : ℚ} (h0 : 0 ≤ L) (h1 : L < 360) :
    ∃ s, get_sign L = .ok s ∧ s ∈ signs := by
  refine ⟨signs.getD (pytrunc (L / 30)).toNat "", get_sign_eq_ok h0 h1, ?_⟩
  have hq : (0 : ℚ) ≤ L / 30 := div_nonneg h0 (by norm_num)
  have hf0 : 0 ≤ ⌊L / 30⌋ := Int.floor_nonneg.2 hq
  have hf1 : ⌊L / 30⌋ < 12 := by
    rw [Int.floor_lt]
    push_cast
    rw [div_lt_iff (by norm_num : (0:ℚ) < 30)]
    linarith
  have hlen : (pytrunc (L / 30)).toNat < signs.length := by
    rw [pytrunc_of_nonneg hq]
    simp only [signs, List.length]
    omega
  rw [List.getD_eq_getElem _ _ hlen]
  exact List.getElem_mem hlen

/-- Normalizing `L + 360k` into `[0,360)` recovers `L`. -/
theorem pymod_add_int_mul {L : ℚ} (k : ℤ) (h0 : 0 ≤ L) (h1 : L < 360) :
    pymod (L + 360 * k) 360 = L := by
  rw [pymod_def]
  have hdiv : (L + 360 * k) / 360 = L / 360 + k := by
    field_simp
    ring
  rw [hdiv, Int.floor_add_int]
  have h360 : ⌊L / 360⌋ = 0 := by
    rw [Int.floor_eq_zero_iff, Set.mem_Ico]
    constructor
    · exact div_nonneg h0 (by norm_num)
    · rw [div_lt_one (by norm_num : (0:ℚ) < 360)]
      exact h1
  rw [h360]
  push_cast
  ring

theorem mapM_eq_ok_of_forall {α β : Type} (xs : List α) (f : α → Except PyErr β)
    (g : α → β) (h : ∀ a ∈ xs, f a = .ok (g a)) : xs.mapM f = .ok (xs.map g) := by
  induction xs with
  | nil => rfl
  | cons a as ih =>
    rw [List.mapM_cons, h a (List.mem_cons_self a as),
      ih (fun b hb => h b (List.mem_cons_of_mem a hb)), List.map_cons]
    rfl

/-- Full evaluation of the dasha computation: it always succeeds, and the
result's four fields are the table lookups at `start_index` and the mapped
9-entry sequence. -/
theorem dasha_eval (L : ℚ) :
    calculate_dasha_periods L = .ok
      { current_dasha := dasha_lords.getD (pytrunc (L / 13.333333) % 9).toNat "",
        elapsed_years := dasha_years.getD (pytrunc (L / 13.333333) % 9).toNat 0 *
          (pymod L 13.333333 / 13.333333),
        remaining_years := dasha_years.getD (pytrunc (L / 13.333333) % 9).toNat 0 -
          dasha_years.getD (pytrunc (L / 13.333333) % 9).toNat 0 *
          (pymod L 13.333333 / 13.333333),
        sequence := (List.range 9).map (fun (i : ℕ) =>
          (dasha_lords.getD ((pytrunc (L / 13.333333) % 9 + (i : ℤ)) % 9).toNat "",
           dasha_years.getD ((pytrunc (L / 13.333333) % 9 + (i : ℤ)) % 9).toNat 0)) } := by
  have hs0 : 0 ≤ pytrunc (L / 13.333333) % 9 :=
    Int.emod_nonneg _ (by norm_num)
  have hs9 : pytrunc (L / 13.333333) % 9 < 9 :=
    Int.emod_lt_of_pos _ (by norm_num)
  have hlenL : (pytrunc (L / 13.333333) % 9).toNat < dasha_lords.length := by
    simp only [dasha_lords, List.length]
    omega
  have hlenY : (pytrunc (L / 13.333333) % 9).toNat < dasha_years.length := by
    simp only [dasha_years, List.length]
    omega
  simp only [calculate_dasha_periods]
  rw [listIndex_eq_ok dasha_years 0 _ hs0 hlenY,
    listIndex_eq_ok dasha_lords "" _ hs0 hlenL,
    mapM_eq_ok_of_forall (List.range 9) _
      (fun (i : ℕ) =>
        (dasha_lords.getD ((pytrunc (L / 13.333333) % 9 + (i : ℤ)) % 9).toNat "",
         dasha_years.getD ((pytrunc (L / 13.333333) % 9 + (i : ℤ)) % 9).toNat 0))
      ?_]
  · rfl
  · intro i _
    have hj0 : 0 ≤ (pytrunc (L / 13.333333) % 9 + (i : ℤ)) % 9 :=
      Int.emod_nonneg _ (by norm_num)
    have hj9 : (pytrunc (L / 13.333333) % 9 + (i : ℤ)) % 9 < 9 :=
      Int.emod_lt_of_pos _ (by norm_num)
    rw [listIndex_eq_ok dasha_lords "" _ hj0 (by simp only [dasha_lords, List.length]; omega),
      listIndex_eq_ok dasha_years 0 _ hj0 (by simp only [dasha_years, List.length]; omega)]
    rfl

@[simp] theorem okBind {α β : Type} (a : α) (f : α → Except PyErr β) :
    (Except.ok a : Except PyErr α) >>= f = f a := rfl

@[simp] theorem errorBind {α β : Type} (e : PyErr) (f : α → Except PyErr β) :
    (Except.error e : Except PyErr α) >>= f = .error e := rfl

/-- Inversion of a successful `mkPosition`: the stored longitude is the
argument and the stored sign/nakshatra are exactly what `get_sign` /
`get_nakshatra` return on it. -/
theorem mkPosition_inv {l : ℚ} {p : Position} (h : mkPosition l = .ok p) :
    p.longitude = l ∧ get_sign l = .ok p.sign ∧
      get_nakshatra l = .ok p.nakshatra := by
  unfold mkPosition at h
  rcases hsg : get_sign l with e | s <;> rw [hsg] at h <;> simp at h
  rcases hnk : get_nakshatra l with e | n <;> rw [hnk] at h <;> simp at h
  subst h
  exact ⟨rfl, rfl, rfl⟩

/-! ### C3 -/

/-- C3: the nakshatra derivation does NOT stay inside the 27-entry table on
all of `[0,360)`: at longitude 359.999995° (a valid input) the truncated
divisor 13.333333 yields index `int(359.999995/13.333333) = 27`, one past
the end of the 27-entry `NAKSHATRAS` table, so the lookup raises
`IndexError`; and just below a nakshatra boundary the pada formula yields
5, outside 1–4. -/
theorem C3_nakshatra_boundary_overflow :
    ((0:ℚ) ≤ 359.999995 ∧ (359.999995:ℚ) < 360) ∧
    pytrunc ((359.999995 : ℚ) / 13.333333) = 27 ∧
    NAKSHATRAS.length = 27 ∧
    get_nakshatra 359.999995 = .error ⟨.indexError, "list index out of range"⟩ ∧
    get_nakshatra 13.3333325 = .ok ⟨"Ashwini", 5⟩ := by
  with_unfolding_all decide

/-! ### C8 -/

/-- C8: for every longitude in `[0,360)` the sign derivation returns
exactly one of the 12 zodiac signs, namely the `int(L/30)`-th table entry,
and it is invariant under adding any multiple of 360° once the argument is
normalized back into `[0,360)`. -/
theorem C8_sign_total_and_periodic :
    ∀ L : ℚ, 0 ≤ L → L < 360 →
      (∃ s, get_sign L = .ok s ∧ s ∈ signs ∧
          s = signs.getD (pytrunc (L / 30)).toNat "") ∧
      signs.length = 12 ∧
      ∀ k : ℤ, get_sign (pymod (L + 360 * k) 360) = get_sign L := by
  intro L h0 h1
  refine ⟨?_, by simp [signs], ?_⟩
  · obtain ⟨s, hs, hmem⟩ := get_sign_mem h0 h1
    refine ⟨s, hs, hmem, ?_⟩
    have := get_sign_eq_ok h0 h1
    rw [hs] at this
    exact Except.ok.inj this
  · intro k
    rw [pymod_add_int_mul k h0 h1]

/-- C8 witness: the theorem instantiated at longitude 100 (and shift −3). -/
theorem C8_witness :
    (0:ℚ) ≤ 100 ∧ (100:ℚ) < 360 ∧
      ((∃ s, get_sign 100 = .ok s ∧ s ∈ signs ∧
          s = signs.getD (pytrunc ((100:ℚ) / 30)).toNat "") ∧
       signs.length = 12 ∧
       ∀ k : ℤ, get_sign (pymod (100 + 360 * k) 360) = get_sign 100) :=
  ⟨by norm_num, by norm_num,
    C8_sign_total_and_periodic 100 (by norm_num) (by norm_num)⟩

/-! ### C5 -/

/-- C5: the fixed dasha table (Ketu 7, Venus 20, Sun 6, Moon 10, Mars 7,
Rahu 18, Jupiter 16, Saturn 19, Mercury 17) sums to exactly 120 years, the
ruling planet is the `nakshatra index mod 9`-th table entry, and for every
Moon longitude in `[0,360)` elapsed plus remaining years equal that
planet's tabulated duration — exactly, in rational arithmetic. -/
theorem C5_dasha_table_sum_and_conservation :
    dasha_lords = ["Ketu", "Venus", "Sun", "Moon", "Mars", "Rahu",
      "Jupiter", "Saturn", "Mercury"] ∧
    dasha_years = [7, 20, 6, 10, 7, 18, 16, 19, 17] ∧
    dasha_years.sum = 120 ∧
    ∀ L : ℚ, 0 ≤ L → L < 360 →
      ∃ d, calculate_dasha_periods L = .ok d ∧
        d.current_dasha = dasha_lords.getD (pytrunc (L / 13.333333) % 9).toNat "" ∧
        d.elapsed_years + d.remaining_years =
          dasha_years.getD (pytrunc (L / 13.333333) % 9).toNat 0 := by
  refine ⟨rfl, rfl, by with_unfolding_all decide, ?_⟩
  intro L _ _
  exact ⟨_, dasha_eval L, rfl, by ring⟩

/-- C5 witness: the theorem instantiated at Moon longitude 100. -/
theorem C5_witness :
    (0:ℚ) ≤ 100 ∧ (100:ℚ) < 360 ∧
      ∃ d, calculate_dasha_periods 100 = .ok d ∧
        d.current_dasha =
          dasha_lords.getD (pytrunc ((100:ℚ) / 13.333333) % 9).toNat "" ∧
        d.elapsed_years + d.remaining_years =
          dasha_years.getD (pytrunc ((100:ℚ) / 13.333333) % 9).toNat 0 :=
  ⟨by norm_num, by norm_num,
    C5_dasha_table_sum_and_conservation.2.2.2 100 (by norm_num) (by norm_num)⟩

/-! ### C6 -/

/-- C6: for every Moon longitude in `[0,360)` the dasha builder returns
the full 9-entry sequence in cyclic table order beginning at the current
ruling planet; at Moon longitude 0 the nakshatra is Ashwini (index 0,
pada 1), the current dasha is Ketu with 0 years elapsed and 7.0
remaining. -/
theorem C6_dasha_sequence_and_scenario :
    (∀ L : ℚ, 0 ≤ L → L < 360 →
      ∃ d, calculate_dasha_periods L = .ok d ∧
        d.sequence.length = 9 ∧
        (∀ i : ℕ, i < 9 →
          d.sequence.getD i ("", 0) =
            (dasha_lords.getD ((pytrunc (L / 13.333333) % 9 + (i : ℤ)) % 9).toNat "",
             dasha_years.getD ((pytrunc (L / 13.333333) % 9 + (i : ℤ)) % 9).toNat 0)) ∧
        d.sequence.getD 0 ("", 0) =
          (d.current_dasha,
           dasha_years.getD (pytrunc (L / 13.333333) % 9).toNat 0)) ∧
    (pytrunc ((0:ℚ) / 13.333333) = 0 ∧
     get_nakshatra 0 = .ok ⟨"Ashwini", 1⟩ ∧
     calculate_dasha_periods 0 = .ok ⟨"Ketu", 0, 7,
       [("Ketu", 7), ("Venus", 20), ("Sun", 6), ("Moon", 10), ("Mars", 7),
        ("Rahu", 18), ("Jupiter", 16), ("Saturn", 19), ("Mercury", 17)]⟩) := by
  constructor
  · intro L _ _
    refine ⟨_, dasha_eval L, by simp, ?_, ?_⟩
    · intro i hi
      have hlt : i < ((List.range 9).map (fun (i : ℕ) =>
          (dasha_lords.getD ((pytrunc (L / 13.333333) % 9 + (i : ℤ)) % 9).toNat "",
           dasha_years.getD ((pytrunc (L / 13.333333) % 9 + (i : ℤ)) % 9).toNat 0))).length := by
        simpa using hi
      rw [List.getD_eq_getElem _ _ hlt]
      simp
    · have hmod : (pytrunc (L / 13.333333) % 9 + ((0:ℕ) : ℤ)) % 9 =
          pytrunc (L / 13.333333) % 9 := by omega
      have hlt : 0 < ((List.range 9).map (fun (i : ℕ) =>
          (dasha_lords.getD ((pytrunc (L / 13.333333) % 9 + (i : ℤ)) % 9).toNat "",
           dasha_years.getD ((pytrunc (L / 13.333333) % 9 + (i : ℤ)) % 9).toNat 0))).length := by
        simp
      rw [List.getD_eq_getElem _ _ hlt]
      simp only [List.getElem_map, List.getElem_range]
      rw [hmod]
  · exact ⟨by with_unfolding_all decide, by with_unfolding_all decide,
      by with_unfolding_all decide⟩

/-- C6 witness: the universal part instantiated at Moon longitude 200. -/
theorem C6_witness :
    (0:ℚ) ≤ 200 ∧ (200:ℚ) < 360 ∧
      ∃ d, calculate_dasha_periods 200 = .ok d ∧
        d.sequence.length = 9 ∧
        (∀ i : ℕ, i < 9 →
          d.sequence.getD i ("", 0) =
            (dasha_lords.getD ((pytrunc ((200:ℚ) / 13.333333) % 9 + (i : ℤ)) % 9).toNat "",
             dasha_years.getD ((pytrunc ((200:ℚ) / 13.333333) % 9 + (i : ℤ)) % 9).toNat 0)) ∧
        d.sequence.getD 0 ("", 0) =
          (d.current_dasha,
           dasha_years.getD (pytrunc ((200:ℚ) / 13.333333) % 9).toNat 0) :=
  ⟨by norm_num, by norm_num,
    C6_dasha_sequence_and_scenario.1 200 (by norm_num) (by norm_num)⟩

/-! ### C7 -/

/-- Evaluation of the divisional-chart computation: it always succeeds and
every entry carries `(L*9) % 360` resp. `(L*10) % 360` with its table
sign. -/
theorem divisional_eval (ps : List (String × Position)) :
    calculate_divisional_charts ps = .ok
      { d9 := ps.map (fun pp => (pp.1,
          DivEntry.mk (pymod (pp.2.longitude * 9) 360)
            (signs.getD (pytrunc (pymod (pp.2.longitude * 9) 360 / 30)).toNat ""))),
        d10 := ps.map (fun pp => (pp.1,
          DivEntry.mk (pymod (pp.2.longitude * 10) 360)
            (signs.getD (pytrunc (pymod (pp.2.longitude * 10) 360 / 30)).toNat ""))) } := by
  simp only [calculate_divisional_charts]
  rw [mapM_eq_ok_of_forall ps _
      (fun pp => (pp.1,
        DivEntry.mk (pymod (pp.2.longitude * 9) 360)
          (signs.getD (pytrunc (pymod (pp.2.longitude * 9) 360 / 30)).toNat ""),
        DivEntry.mk (pymod (pp.2.longitude * 10) 360)
          (signs.getD (pytrunc (pymod (pp.2.longitude * 10) 360 / 30)).toNat "")))
      ?_]
  · simp only [okBind, List.map_map]
    rfl
  · intro pp _
    rw [get_sign_eq_ok (pymod_nonneg _ (by norm_num)) (pymod_lt _ (by norm_num)),
      get_sign_eq_ok (pymod_nonneg _ (by norm_num)) (pymod_lt _ (by norm_num))]
    rfl

/-- C7: for every planet the divisional-chart longitudes are exactly
`(L*9) % 360` and `(L*10) % 360` of the stored main longitude `L`, the
signs are derived from those values by the `int(x/30)` table rule (i.e.
agree with `get_sign`), and the computation is deterministic — recomputing
from the same stored positions yields the same divisional charts. -/
theorem C7_divisional_chart_derivation :
    ∀ ps : List (String × Position),
      ∃ r, calculate_divisional_charts ps = .ok r ∧
        (∀ r2, calculate_divisional_charts ps = .ok r2 → r2 = r) ∧
        r.d9 = ps.map (fun pp => (pp.1,
          DivEntry.mk (pymod (pp.2.longitude * 9) 360)
            (signs.getD (pytrunc (pymod (pp.2.longitude * 9) 360 / 30)).toNat ""))) ∧
        r.d10 = ps.map (fun pp => (pp.1,
          DivEntry.mk (pymod (pp.2.longitude * 10) 360)
            (signs.getD (pytrunc (pymod (pp.2.longitude * 10) 360 / 30)).toNat ""))) ∧
        (∀ e ∈ r.d9, get_sign e.2.longitude = .ok e.2.sign) ∧
        (∀ e ∈ r.d10, get_sign e.2.longitude = .ok e.2.sign) := by
  intro ps
  refine ⟨_, divisional_eval ps, ?_, rfl, rfl, ?_, ?_⟩
  · intro r2 h
    rw [divisional_eval ps] at h
    exact (Except.ok.inj h).symm
  · intro e he
    obtain ⟨pp, _, rfl⟩ := List.mem_map.1 he
    exact get_sign_eq_ok (pymod_nonneg _ (by norm_num)) (pymod_lt _ (by norm_num))
  · intro e he
    obtain ⟨pp, _, rfl⟩ := List.mem_map.1 he
    exact get_sign_eq_ok (pymod_nonneg _ (by norm_num)) (pymod_lt _ (by norm_num))

/-- C7 witness: the theorem instantiated at a one-planet positions dict
with stored main longitude 100. -/
theorem C7_witness :
    ∃ r, calculate_divisional_charts
        [("Sun", Position.mk 100 "Cancer" ⟨"Pushya", 4⟩ none)] = .ok r ∧
      (∀ r2, calculate_divisional_charts
          [("Sun", Position.mk 100 "Cancer" ⟨"Pushya", 4⟩ none)] = .ok r2 →
        r2 = r) ∧
      r.d9 = [("Sun", Position.mk 100 "Cancer" ⟨"Pushya", 4⟩ none)].map
        (fun pp => (pp.1,
          DivEntry.mk (pymod (pp.2.longitude * 9) 360)
            (signs.getD (pytrunc (pymod (pp.2.longitude * 9) 360 / 30)).toNat ""))) ∧
      r.d10 = [("Sun", Position.mk 100 "Cancer" ⟨"Pushya", 4⟩ none)].map
        (fun pp => (pp.1,
          DivEntry.mk (pymod (pp.2.longitude * 10) 360)
            (signs.getD (pytrunc (pymod (pp.2.longitude * 10) 360 / 30)).toNat ""))) ∧
      (∀ e ∈ r.d9, get_sign e.2.longitude = .ok e.2.sign) ∧
      (∀ e ∈ r.d10, get_sign e.2.longitude = .ok e.2.sign) :=
  C7_divisional_chart_derivation
    [("Sun", Position.mk 100 "Cancer" ⟨"Pushya", 4⟩ none)]

/-! ### C4 -/

/-- C4: Ketu's longitude is `(R + 180) mod 360` — concretely `R + 180` for
`R < 180` and `R − 180` otherwise, so Rahu and Ketu are exactly 180° apart
on the circle — and whenever the Ketu entry is built, its sign and
nakshatra agree with independently applying `get_sign`/`get_nakshatra` to
that longitude; in particular Rahu at 100° gives Ketu at 280°, sign
Capricorn. -/
theorem C4_ketu_derivation :
    (∀ R : ℚ, 0 ≤ R → R < 360 →
      (pymod (R + 180) 360 = if R < 180 then R + 180 else R - 180) ∧
      pymod (pymod (R + 180) 360 - R) 360 = 180 ∧
      ∀ kp, ketu_position R = .ok kp →
        kp.longitude = pymod (R + 180) 360 ∧
        get_sign kp.longitude = .ok kp.sign ∧
        get_nakshatra kp.longitude = .ok kp.nakshatra) ∧
    (ketu_position 100 = .ok ⟨280, "Capricorn", ⟨"Shravana", 1⟩, none⟩ ∧
     pymod ((100:ℚ) + 180) 360 = 280 ∧
     get_sign 280 = .ok "Capricorn") := by
  constructor
  · intro R h0 h1
    have hval : pymod (R + 180) 360 = if R < 180 then R + 180 else R - 180 := by
      rw [pymod_def]
      by_cases hR : R < 180
      · rw [if_pos hR]
        have hfl : ⌊(R + 180) / 360⌋ = 0 := by
          rw [Int.floor_eq_zero_iff, Set.mem_Ico]
          constructor
          · positivity
          · rw [div_lt_one (by norm_num : (0:ℚ) < 360)]
            linarith
        rw [hfl]
        push_cast
        ring
      · rw [if_neg hR]
        push_neg at hR
        have hfl : ⌊(R + 180) / 360⌋ = 1 := by
          rw [Int.floor_eq_iff]
          push_cast
          constructor
          · rw [le_div_iff (by norm_num : (0:ℚ) < 360)]
            linarith
          · rw [div_lt_iff (by norm_num : (0:ℚ) < 360)]
            linarith
        rw [hfl]
        push_cast
        ring
    refine ⟨hval, ?_, ?_⟩
    · rw [hval]
      by_cases hR : R < 180
      · rw [if_pos hR]
        have h180 : R + 180 - R = 180 := by ring
        rw [h180]
        with_unfolding_all decide
      · rw [if_neg hR]
        have h180 : R - 180 - R = -180 := by ring
        rw [h180]
        with_unfolding_all decide
    · intro kp h
      obtain ⟨hl, hs, hn⟩ := mkPosition_inv h
      exact ⟨hl, by rw [hl]; exact hs, by rw [hl]; exact hn⟩
  · refine ⟨by with_unfolding_all decide, by with_unfolding_all decide,
      by with_unfolding_all decide⟩

/-- C4 witness: the universal part instantiated at Rahu longitude 250. -/
theorem C4_witness :
    (0:ℚ) ≤ 250 ∧ (250:ℚ) < 360 ∧
      ((pymod ((250:ℚ) + 180) 360 = if (250:ℚ) < 180 then 250 + 180 else 250 - 180) ∧
       pymod (pymod ((250:ℚ) + 180) 360 - 250) 360 = 180 ∧
       ∀ kp, ketu_position 250 = .ok kp →
         kp.longitude = pymod ((250:ℚ) + 180) 360 ∧
         get_sign kp.longitude = .ok kp.sign ∧
         get_nakshatra kp.longitude = .ok kp.nakshatra) :=
  ⟨by norm_num, by norm_num,
    C4_ketu_derivation.1 250 (by norm_num) (by norm_num)⟩

/-! ### C2 -/

theorem houseMatch_true_of_mono {c n l : ℚ} (h : c ≤ n) :
    houseMatch c n l = true ↔ (c ≤ l ∧ l < n) := by
  unfold houseMatch
  rw [if_neg (not_lt.2 h)]
  simp

theorem houseMatch_true_of_wrap {c n l : ℚ} (h : n < c) :
    houseMatch c n l = true ↔ (c ≤ l ∨ l < n) := by
  unfold houseMatch
  rw [if_pos h]
  simp

theorem find?_range_unique {p : ℕ → Bool} {n i : ℕ} (hi : i < n)
    (hp : p i = true) (huniq : ∀ j, j < n → p j = true → j = i) :
    (List.range n).find? p = some i := by
  rcases h : (List.range n).find? p with _ | x
  · rw [List.find?_eq_none] at h
    exact absurd hp (h i (List.mem_range.2 hi))
  · have hx := List.find?_some h
    have hmem := List.mem_range.1 (List.mem_of_find?_eq_some h)
    rw [huniq x hmem hx]

/-- In a nondecreasing cusp chain with `d 0 ≤ L < d 11`, some half-open
interval `[d i, d (i+1))`, `i < 11`, contains `L`. -/
theorem exists_cusp_interval (d : ℕ → ℚ) (L : ℚ)
    (hlo : d 0 ≤ L) (hhi : L < d 11) :
    ∃ i, i < 11 ∧ d i ≤ L ∧ L < d (i + 1) := by
  by_cases h1 : L < d 1
  · exact ⟨0, by omega, hlo, h1⟩
  by_cases h2 : L < d 2
  · exact ⟨1, by omega, not_lt.1 h1, h2⟩
  by_cases h3 : L < d 3
  · exact ⟨2, by omega, not_lt.1 h2, h3⟩
  by_cases h4 : L < d 4
  · exact ⟨3, by omega, not_lt.1 h3, h4⟩
  by_cases h5 : L < d 5
  · exact ⟨4, by omega, not_lt.1 h4, h5⟩
  by_cases h6 : L < d 6
  · exact ⟨5, by omega, not_lt.1 h5, h6⟩
  by_cases h7 : L < d 7
  · exact ⟨6, by omega, not_lt.1 h6, h7⟩
  by_cases h8 : L < d 8
  · exact ⟨7, by omega, not_lt.1 h7, h8⟩
  by_cases h9 : L < d 9
  · exact ⟨8, by omega, not_lt.1 h8, h9⟩
  by_cases h10 : L < d 10
  · exact ⟨9, by omega, not_lt.1 h9, h10⟩
  exact ⟨10, by omega, not_lt.1 h10, hhi⟩

/-- Transitive monotonicity of the cusp chain. -/
theorem cusp_chain_le (d : ℕ → ℚ)
    (hmono : ∀ i, i + 1 < 12 → d i ≤ d (i + 1)) :
    ∀ i j, i ≤ j → j ≤ 11 → d i ≤ d j := by
  intro i j hij hj
  induction j with
  | zero =>
    have : i = 0 := by omega
    subst this
    exact le_refl _
  | succ k ih =>
    rcases Nat.eq_or_lt_of_le hij with rfl | hlt
    · exact le_refl _
    · exact le_trans (ih (by omega) (by omega)) (hmono k (by omega))

/-- With nondecreasing cusps wrapping exactly once at the 12th→1st
boundary, every longitude matches exactly one index of the assignment
loop — with no constraint on `L` at all. -/
theorem unique_house_index (d : ℕ → ℚ) (L : ℚ)
    (hmono : ∀ i, i + 1 < 12 → d i ≤ d (i + 1))
    (hwrap : d 0 < d 11) :
    ∃ i, i < 12 ∧
      houseMatch (d i) (d ((i + 1) % 12)) L = true ∧
      ∀ j, j < 12 → houseMatch (d j) (d ((j + 1) % 12)) L = true → j = i := by
  by_cases hcase : d 0 ≤ L ∧ L < d 11
  · obtain ⟨i, hi11, hiL, hiU⟩ := exists_cusp_interval d L hcase.1 hcase.2
    have hmod : (i + 1) % 12 = i + 1 := Nat.mod_eq_of_lt (by omega)
    have hmatch : houseMatch (d i) (d ((i + 1) % 12)) L = true := by
      rw [hmod, houseMatch_true_of_mono (hmono i (by omega))]
      exact ⟨hiL, hiU⟩
    refine ⟨i, by omega, hmatch, ?_⟩
    intro j hj hjm
    by_cases hj11 : j = 11
    · subst hj11
      rw [show (11 + 1) % 12 = 0 by norm_num, houseMatch_true_of_wrap hwrap] at hjm
      rcases hjm with hge | hlt
      · have : d (i + 1) ≤ d 11 := cusp_chain_le d hmono (i + 1) 11 (by omega) (by omega)
        linarith
      · have : d 0 ≤ d i := cusp_chain_le d hmono 0 i (by omega) (by omega)
        linarith
    · have hj' : j + 1 < 12 := by omega
      rw [Nat.mod_eq_of_lt (by omega), houseMatch_true_of_mono (hmono j hj')] at hjm
      by_contra hne
      rcases Nat.lt_or_ge j i with hlt | hge
      · have : d (j + 1) ≤ d i := cusp_chain_le d hmono (j + 1) i (by omega) (by omega)
        linarith [hjm.2, hiL]
      · have hgt : i < j := by omega
        have : d (i + 1) ≤ d j := cusp_chain_le d hmono (i + 1) j (by omega) (by omega)
        linarith [hjm.1, hiU]
  · have hmatch : houseMatch (d 11) (d ((11 + 1) % 12)) L = true := by
      rw [show (11 + 1) % 12 = 0 by norm_num, houseMatch_true_of_wrap hwrap]
      by_cases hlo : d 0 ≤ L
      · left
        by_contra hno
        exact hcase ⟨hlo, not_le.1 hno⟩
      · right
        exact not_le.1 hlo
    refine ⟨11, by omega, hmatch, ?_⟩
    intro j hj hjm
    by_contra hne
    have hj' : j + 1 < 12 := by omega
    rw [Nat.mod_eq_of_lt (by omega), houseMatch_true_of_mono (hmono j hj')] at hjm
    rw [show (11 + 1) % 12 = 0 by norm_num, houseMatch_true_of_wrap hwrap] at hmatch
    rcases hmatch with hge | hlt
    · have : d (j + 1) ≤ d 11 := cusp_chain_le d hmono (j + 1) 11 (by omega) (by omega)
      linarith [hjm.2]
    · have : d 0 ≤ d j := cusp_chain_le d hmono 0 j (by omega) (by omega)
      linarith [hjm.1]

/-- C2: for cusps in correct cyclic order (nondecreasing along indices
0–11) whose single wraparound is the 12th→1st boundary, every longitude in
`[0,360)` matches exactly one loop index `i`, and the assignment returns
exactly `some (i+1)`, a house number in 1–12; and with cusps
`[350, 20, 50, …]` a planet at 5° is assigned house 1. -/
theorem C2_house_assignment_total_exclusive :
    (∀ (cusps : List ℚ) (L : ℚ),
      cusps.length = 12 →
      (∀ i, i < 12 → 0 ≤ cusps.getD i 0 ∧ cusps.getD i 0 < 360) →
      (∀ i, i + 1 < 12 → cusps.getD i 0 ≤ cusps.getD (i + 1) 0) →
      cusps.getD 0 0 < cusps.getD 11 0 →
      0 ≤ L → L < 360 →
      ∃ i, i < 12 ∧
        houseMatch (cusps.getD i 0) (cusps.getD ((i + 1) % 12) 0) L = true ∧
        (∀ j, j < 12 →
          houseMatch (cusps.getD j 0) (cusps.getD ((j + 1) % 12) 0) L = true →
            j = i) ∧
        assign_house cusps L = some (i + 1) ∧ 1 ≤ i + 1 ∧ i + 1 ≤ 12) ∧
    assign_house [350, 20, 50, 80, 110, 140, 170, 200, 230, 260, 290, 320] 5 =
      some 1 := by
  constructor
  · intro cusps L hlen _hrange hmono hwrap h0 h1
    obtain ⟨i, hi, hm, hu⟩ :=
      unique_house_index (fun k => cusps.getD k 0) L hmono hwrap
    refine ⟨i, hi, hm, hu, ?_, by omega, by omega⟩
    have hfind : (List.range 12).find?
        (fun j => houseMatch (cusps.getD j 0) (cusps.getD ((j + 1) % 12) 0) L) =
        some i := find?_range_unique hi hm hu
    unfold assign_house
    rw [hlen, hfind]
    rfl
  · with_unfolding_all decide

/-- C2 witness: the universal part instantiated at an increasing cusp
configuration wrapping only at the 12th→1st boundary, with longitude 50
(house 2 matches at index 1). -/
theorem C2_witness :
    ([(10:ℚ), 40, 70, 100, 130, 160, 190, 220, 250, 280, 310, 340] :
        List ℚ).length = 12 ∧
    ∃ i, i < 12 ∧
      houseMatch
        (([(10:ℚ), 40, 70, 100, 130, 160, 190, 220, 250, 280, 310, 340]).getD i 0)
        (([(10:ℚ), 40, 70, 100, 130, 160, 190, 220, 250, 280, 310, 340]).getD
          ((i + 1) % 12) 0) 50 = true ∧
      (∀ j, j < 12 →
        houseMatch
          (([(10:ℚ), 40, 70, 100, 130, 160, 190, 220, 250, 280, 310, 340]).getD j 0)
          (([(10:ℚ), 40, 70, 100, 130, 160, 190, 220, 250, 280, 310, 340]).getD
            ((j + 1) % 12) 0) 50 = true → j = i) ∧
      assign_house [(10:ℚ), 40, 70, 100, 130, 160, 190, 220, 250, 280, 310, 340]
        50 = some (i + 1) ∧ 1 ≤ i + 1 ∧ i + 1 ≤ 12 :=
  ⟨rfl,
    C2_house_assignment_total_exclusive.1
      [(10:ℚ), 40, 70, 100, 130, 160, 190, 220, 250, 280, 310, 340] 50 rfl
      (by
        intro i hi
        interval_cases i <;> with_unfolding_all decide)
      (by
        intro i hi
        have h11 : i < 11 := by omega
        interval_cases i <;> with_unfolding_all decide)
      (by with_unfolding_all decide) (by norm_num) (by norm_num)⟩

/-! ### C10 -/

/-- C10 counterexample: a negative (un-normalized) longitude does NOT make
the sign lookup fail, contrary to the claim: Python `int()` truncates
toward zero and Python list indexing accepts negative indices, so −5°
resolves to index 0 (Aries) and −35° to index −1 (Pisces). -/
theorem C10_counterexample_negative_longitude :
    get_sign (-5) = .ok "Aries" ∧ get_sign (-35) = .ok "Pisces" := by
  with_unfolding_all decide

/-- C10 (amended): the sign lookup succeeds on all of `[0,360)`; it fails
for every longitude ≥ 360; but for negative longitudes it only fails from
−390 downward — on `(−390, 0)` truncation toward zero and negative
indexing still produce a sign. -/
theorem C10_sign_lookup_bounds :
    (∀ L : ℚ, 0 ≤ L → L < 360 → ∃ s, get_sign L = .ok s) ∧
    (∀ L : ℚ, 360 ≤ L →
      get_sign L = .error ⟨.indexError, "list index out of range"⟩) ∧
    (∀ L : ℚ, -390 < L → L < 0 → ∃ s, get_sign L = .ok s) ∧
    (∀ L : ℚ, L ≤ -390 →
      get_sign L = .error ⟨.indexError, "list index out of range"⟩) := by
  refine ⟨?_, ?_, ?_, ?_⟩
  · intro L h0 h1
    obtain ⟨s, hs, _⟩ := get_sign_mem h0 h1
    exact ⟨s, hs⟩
  · intro L hL
    have hq : (0 : ℚ) ≤ L / 30 := div_nonneg (by linarith) (by norm_num)
    have ht : pytrunc (L / 30) = ⌊L / 30⌋ := pytrunc_of_nonneg hq
    have hf : 12 ≤ ⌊L / 30⌋ := by
      rw [Int.le_floor]
      push_cast
      rw [le_div_iff (by norm_num : (0:ℚ) < 30)]
      linarith
    apply listIndex_eq_error
    · rw [ht]; omega
    · rw [ht]
      simp only [signs, List.length]
      omega
  · intro L hgt hlt
    have hq : L / 30 < 0 := div_neg_of_neg_of_pos hlt (by norm_num)
    have ht : pytrunc (L / 30) = ⌈L / 30⌉ := pytrunc_of_neg hq
    have hle : ⌈L / 30⌉ ≤ 0 := Int.ceil_le.2 (by linarith)
    have hgt13 : -13 < ⌈L / 30⌉ := by
      rw [Int.lt_ceil]
      push_cast
      rw [lt_div_iff (by norm_num : (0:ℚ) < 30)]
      linarith
    unfold get_sign listIndex pyGet
    rw [ht]
    by_cases hnn : 0 ≤ ⌈L / 30⌉
    · have h0 : ⌈L / 30⌉ = 0 := le_antisymm hle hnn
      rw [if_pos hnn, h0]
      exact ⟨"Aries", rfl⟩
    · rw [if_neg hnn]
      have hlen : -(signs.length : ℤ) ≤ ⌈L / 30⌉ := by
        simp only [signs, List.length]
        omega
      rw [if_pos hlen]
      have hbound : ((signs.length : ℤ) + ⌈L / 30⌉).toNat < signs.length := by
        simp only [signs, List.length] at hlen ⊢
        omega
      rw [List.getElem?_eq_getElem hbound]
      exact ⟨_, rfl⟩
  · intro L hL
    have hq : L / 30 < 0 := div_neg_of_neg_of_pos (by linarith) (by norm_num)
    have ht : pytrunc (L / 30) = ⌈L / 30⌉ := pytrunc_of_neg hq
    have hle : ⌈L / 30⌉ ≤ -13 := by
      rw [Int.ceil_le]
      push_cast
      rw [div_le_iff (by norm_num : (0:ℚ) < 30)]
      linarith
    unfold get_sign listIndex pyGet
    rw [ht]
    rw [if_neg (by omega), if_neg (by simp only [signs, List.length]; omega)]

/-- C10 witness: the amended theorem instantiated at longitudes 5, 400,
−5 and −400. -/
theorem C10_witness :
    (∃ s, get_sign (5:ℚ) = .ok s) ∧
    get_sign (400:ℚ) = .error ⟨.indexError, "list index out of range"⟩ ∧
    (∃ s, get_sign (-5:ℚ) = .ok s) ∧
    get_sign (-400:ℚ) = .error ⟨.indexError, "list index out of range"⟩ :=
  ⟨C10_sign_lookup_bounds.1 5 (by norm_num) (by norm_num),
   C10_sign_lookup_bounds.2.1 400 (by norm_num),
   C10_sign_lookup_bounds.2.2.1 (-5) (by norm_num) (by norm_num),
   C10_sign_lookup_bounds.2.2.2 (-400) (by norm_num)⟩

/-! ### C1 -/

/-- C1 counterexample: with degenerate cusp data (all 12 cusps at 0°) no
cusp interval matches the Sun's longitude 0°, yet chart generation
completes successfully and the Sun's house is simply left unassigned — no
`InconsistentHouseData` (or any other) error is raised, and house 1 is not
applied as a default either. -/
theorem C1_counterexample_unassigned_house :
    assign_house (List.replicate 12 0) 0 = none ∧
    chart_ok (generate_birth_chart degenerate_stages) = true ∧
    sun_house (generate_birth_chart degenerate_stages) = some none := by
  with_unfolding_all decide

/-- C1 (amended): when no cusp interval matches a longitude, the
assignment loop leaves the planet's house unset (`None`) — it raises
nothing and does not default to house 1. -/
theorem C1_no_match_leaves_unassigned :
    ∀ (cusps : List ℚ) (L : ℚ), cusps.length = 12 →
      (∀ i, i < 12 →
        houseMatch (cusps.getD i 0) (cusps.getD ((i + 1) % 12) 0) L = false) →
      assign_house cusps L = none := by
  intro cusps L hlen hnone
  unfold assign_house
  rw [hlen]
  have hfind : (List.range 12).find?
      (fun i => houseMatch (cusps.getD i 0) (cusps.getD ((i + 1) % 12) 0) L) =
      none := by
    rw [List.find?_eq_none]
    intro x hx
    have h := hnone x (List.mem_range.1 hx)
    simp only [List.getD_eq_getElem?_getD] at h
    simp [h]
  rw [hfind]
  rfl

/-- C1 witness: the amended theorem instantiated at the all-zero cusp
configuration and longitude 5. -/
theorem C1_witness :
    assign_house (List.replicate 12 0) 5 = none :=
  C1_no_match_leaves_unassigned (List.replicate 12 0) 5 (by simp)
    (by
      intro i hi
      interval_cases i <;> with_unfolding_all decide)

/-! ### C9 -/

/-- The assembler either returns a chart or re-wraps the raised exception. -/
theorem generate_birth_chart_cases (st : Stages) :
    (∃ c, generate_birth_chart st = .ok c) ∨
    (∃ e, generate_birth_chart st = .error (wrap_error e)) := by
  unfold generate_birth_chart
  rcases generate_birth_chart_inner st with e | c
  · exact .inr ⟨e, rfl⟩
  · exact .inl ⟨c, rfl⟩

/-- If the `try` body produced a chart, every collaborator stage had
succeeded. -/
theorem inner_ok_stages {st : Stages} {c : Chart}
    (h : generate_birth_chart_inner st = .ok c) :
    pyOk st.coordinates = true ∧ pyOk st.timezone = true ∧
    pyOk st.julian_day = true ∧ pyOk st.houses = true ∧
    pyOk st.tropical_longitudes = true := by
  unfold generate_birth_chart_inner at h
  rcases st with ⟨n, bd, bt, bp, co, tz, jd, hs, tr⟩
  rcases co with e | v
  · simp at h
  rcases tz with e | v2
  · simp at h
  rcases jd with e | v3
  · simp at h
  rcases hs with e | v4
  · simp at h
  rcases tr with e | v5
  · simp at h
  exact ⟨rfl, rfl, rfl, rfl, rfl⟩

/-- C9 (amended): any failure in an upstream stage aborts assembly — no
chart is returned — but the error handed to the caller is always the
generic wrapped `Exception`, not the failing stage's own error kind: every
error the assembler returns has kind `exception` and the wrapper's message
prefix, a chart is only returned when every stage succeeded, and any stage
failure forces a wrapped-`exception` result. -/
theorem C9_failure_aborts_with_wrapped_error :
    (∀ st e, generate_birth_chart st = .error e →
      e.kind = ExcKind.exception ∧ ∃ e0, e = wrap_error e0) ∧
    (∀ st c, generate_birth_chart st = .ok c →
      pyOk st.coordinates = true ∧ pyOk st.timezone = true ∧
      pyOk st.julian_day = true ∧ pyOk st.houses = true ∧
      pyOk st.tropical_longitudes = true) ∧
    (∀ st e, (st.coordinates = .error e ∨ st.timezone = .error e ∨
        st.julian_day = .error e ∨ st.houses = .error e ∨
        st.tropical_longitudes = .error e) →
      ∃ m, generate_birth_chart st = .error ⟨ExcKind.exception, m⟩) := by
  have hok : ∀ st c, generate_birth_chart st = .ok c →
      pyOk st.coordinates = true ∧ pyOk st.timezone = true ∧
      pyOk st.julian_day = true ∧ pyOk st.houses = true ∧
      pyOk st.tropical_longitudes = true := by
    intro st c h
    unfold generate_birth_chart at h
    rcases hin : generate_birth_chart_inner st with e | c2 <;> rw [hin] at h
    · simp at h
    · exact inner_ok_stages hin
  refine ⟨?_, hok, ?_⟩
  · intro st e h
    rcases generate_birth_chart_cases st with ⟨c, hc⟩ | ⟨e0, he⟩
    · rw [hc] at h
      simp at h
    · rw [he] at h
      have he2 := (Except.error.inj h).symm
      exact ⟨he2 ▸ rfl, e0, he2⟩
  · intro st e hdisj
    rcases generate_birth_chart_cases st with ⟨c, hc⟩ | ⟨e0, he⟩
    · obtain ⟨h1, h2, h3, h4, h5⟩ := hok st c hc
      rcases hdisj with h | h | h | h | h
      · rw [h] at h1
        exact absurd h1 (by simp [pyOk])
      · rw [h] at h2
        exact absurd h2 (by simp [pyOk])
      · rw [h] at h3
        exact absurd h3 (by simp [pyOk])
      · rw [h] at h4
        exact absurd h4 (by simp [pyOk])
      · rw [h] at h5
        exact absurd h5 (by simp [pyOk])
    · exact ⟨"Error calculating birth chart: " ++ e0.msg, he⟩

/-- C9 counterexample: when the geocoder stage fails with a `ValueError`,
the caller receives a plain wrapped `Exception`, not the stage's own
typed error — the specific error kind is lost. -/
theorem C9_counterexample_error_kind_lost :
    failing_stages.coordinates =
      .error ⟨.valueError, "Could not find coordinates for Nowhere"⟩ ∧
    generate_birth_chart failing_stages =
      .error ⟨.exception,
        "Error calculating birth chart: Could not find coordinates for Nowhere"⟩ ∧
    ExcKind.exception ≠ ExcKind.valueError := by
  refine ⟨rfl, ?_, by decide⟩
  with_unfolding_all decide

/-- C9 witness: the amended theorem instantiated at the concrete failing
request. -/
theorem C9_witness :
    ∃ m, generate_birth_chart failing_stages =
      .error ⟨ExcKind.exception, m⟩ :=
  C9_failure_aborts_with_wrapped_error.2.2 failing_stages
    ⟨.valueError, "Could not find coordinates for Nowhere"⟩ (Or.inl rfl)

end Astro
